import Mathlib

/-!
Shallow embedding of `src/rollup.config.ts`: a build-target matrix generator
that derives four rollup build descriptors (ESM, CJS, UMD-dev, UMD-prod) from
a single package declaration.  Each definition below mirrors one declaration of
the TypeScript source; plugins are modelled as a tagged variant carrying the
exact option values the source passes, and the descriptor record keeps the
source's field names.
-/

/-- Configuration object passed to the `@rollup/plugin-replace` factory by
`umdDevPlugin` (source lines 29-34): one textual substitution mapping,
empty delimiters, `preventAssignment: true`. -/
structure ReplaceConfig where
  pattern : String
  replacement : String
  delimiters : String × String
  preventAssignment : Bool
  deriving DecidableEq, Repr

/-- The plugin values appearing in the source, as a closed tagged variant.
Each constructor carries the option values the source passes to the
corresponding plugin factory; the `exclude` regex of babel is modelled by its
source text. A `visualizer` option that the source leaves absent is `none`. -/
inductive Plugin where
  | babel (babelHelpers : String) (exclude : String) (extensions : List String)
  | nodeResolve (extensions : List String)
  | replace (cfg : ReplaceConfig)
  | terser (mangle : Bool) (compress : Bool)
  | size
  | visualizer (filename : String) (json : Option Bool) (gzipSize : Option Bool)
  deriving DecidableEq, Repr

/-- The `output` object of a rollup config as the source populates it.
Fields the source sets only for some formats are `Option` with default
`none` (absent). -/
structure OutputConfig where
  format : String
  sourcemap : Bool
  dir : Option String := none
  file : Option String := none
  preserveModules : Option Bool := none
  exports : Option String := none
  name : Option String := none
  globals : Option (List (String × String)) := none
  banner : String
  deriving DecidableEq, Repr

/-- A rollup configuration object, i.e. one build descriptor, with the four
fields the source populates (`external`, `input`, `output`, `plugins`).
This is both the element type of the generator's result list and the type of
the (ignored) options argument of the exported `rollup` function, matching
the single TS type `RollupOptions` used for both. -/
structure RollupOptions where
  external : String → Bool
  input : String
  output : OutputConfig
  plugins : List Plugin

/-- The intermediate `Options` record built by `buildConfigs` (source lines
10-17) and passed to the four per-format builders. -/
structure Options where
  input : String
  packageDir : String
  external : String → Bool
  banner : String
  jsName : String
  outputFile : String

/-- The argument record of `buildConfigs` (source lines 54-60): the package
declaration. -/
structure BuildOpts where
  packageDir : String
  name : String
  jsName : String
  outputFile : String
  entryFile : String

/-- The process-wide peer-dependency-to-global-symbol mapping (source lines
19-25), kept in the source's key order. -/
def globals : List (String × String) :=
  [("react", "React"),
   ("solid-js", "Solid"),
   ("solid-js/store", "SolidStore"),
   ("react-dom", "ReactDOM"),
   ("@tanstack/ranger-core", "RangerCore")]

/-- `const externals = Object.keys(globals)` (source line 27). -/
def externals : List String := globals.map Prod.fst

/-- `umdDevPlugin` (source lines 29-34): the environment-replace stage with
the given mode, substituting the literal token `process.env.NODE_ENV` by the
quoted mode string, with empty delimiters and `preventAssignment: true`. -/
def umdDevPlugin (type : String) : Plugin :=
  .replace
    { pattern := "process.env.NODE_ENV"
      replacement := "\"" ++ type ++ "\""
      delimiters := ("", "")
      preventAssignment := true }

/-- `babelPlugin` (source lines 36-40). -/
def babelPlugin : Plugin :=
  .babel "bundled" "node_modules" [".ts", ".tsx", ".jsx"]

/-- Model of Node's `path.resolve(dir, file)` for the cases this source can
reach: an absolute `file` wins, an empty `file` is skipped, otherwise the two
relative segments are joined.  Node would additionally prepend the process
working directory to a fully relative result; that common prefix is omitted
here since no property of the generator depends on it. -/
def path_resolve (dir file : String) : String :=
  if file.startsWith "/" then file
  else if file = "" then dir
  else dir ++ "/" ++ file

/-- `createBanner` (source lines 181-192): the literal license header with
the library name interpolated once. -/
def createBanner (libraryName : String) : String :=
  "/**\n * " ++ libraryName ++
    "\n *\n * Copyright (c) TanStack\n *\n * This source code is licensed under the MIT license found in the\n * LICENSE.md file in the root directory of this source tree.\n *\n * @license MIT\n */"

/-- `esm` (source lines 79-92). -/
def esm (o : Options) : RollupOptions :=
  { external := o.external
    input := o.input
    output :=
      { format := "esm"
        sourcemap := true
        dir := some (o.packageDir ++ "/build/esm")
        banner := o.banner }
    plugins := [babelPlugin, .nodeResolve [".ts", ".tsx", ".jsx"]] }

/-- `cjs` (source lines 94-109). -/
def cjs (o : Options) : RollupOptions :=
  { external := o.external
    input := o.input
    output :=
      { format := "cjs"
        sourcemap := true
        dir := some (o.packageDir ++ "/build/cjs")
        preserveModules := some true
        exports := some "named"
        banner := o.banner }
    plugins := [babelPlugin, .nodeResolve [".ts", ".tsx", ".jsx"]] }

/-- `umdDev` (source lines 111-137). -/
def umdDev (o : Options) : RollupOptions :=
  { external := o.external
    input := o.input
    output :=
      { format := "umd"
        sourcemap := true
        file := some (o.packageDir ++ "/build/umd/index.development.js")
        name := some o.jsName
        globals := some globals
        banner := o.banner }
    plugins :=
      [babelPlugin, .nodeResolve [".ts", ".tsx", ".jsx"],
       umdDevPlugin "development"] }

/-- `umdProd` (source lines 139-179). -/
def umdProd (o : Options) : RollupOptions :=
  { external := o.external
    input := o.input
    output :=
      { format := "umd"
        sourcemap := true
        file := some (o.packageDir ++ "/build/umd/index.production.js")
        name := some o.jsName
        globals := some globals
        banner := o.banner }
    plugins :=
      [babelPlugin, .nodeResolve [".ts", ".tsx", ".jsx"],
       umdDevPlugin "production",
       .terser true true,
       .size,
       .visualizer (o.packageDir ++ "/build/stats-html.html") none (some true),
       .visualizer (o.packageDir ++ "/build/stats-react.json") (some true) (some true)] }

/-- `buildConfigs` (source lines 54-77): resolves the entry path once, copies
the process-wide externals list, derives the membership classifier and the
banner, and returns the four descriptors in the fixed order
ESM, CJS, UMD-dev, UMD-prod. -/
def buildConfigs (opts : BuildOpts) : List RollupOptions :=
  let input := path_resolve opts.packageDir opts.entryFile
  let externalDeps := externals
  let external := fun moduleName => externalDeps.contains moduleName
  let banner := createBanner opts.name
  let options : Options :=
    { input := input
      jsName := opts.jsName
      outputFile := opts.outputFile
      packageDir := opts.packageDir
      external := external
      banner := banner }
  [esm options, cjs options, umdDev options, umdProd options]

/-- The exported default function (source lines 42-52): builds the matrix for
the single fixed `ranger-core` package, ignoring its options argument. -/
def rollup (options : RollupOptions) : List RollupOptions :=
  buildConfigs
    { name := "ranger-core"
      packageDir := "packages/ranger-core"
      jsName := "RangerCore"
      outputFile := "ranger-core"
      entryFile := "src/index.jsx" }

/-- The package declaration hard-coded in `rollup` (source lines 44-50),
named for reuse in concrete statements. -/
def rangerCoreDecl : BuildOpts :=
  { name := "ranger-core"
    packageDir := "packages/ranger-core"
    jsName := "RangerCore"
    outputFile := "ranger-core"
    entryFile := "src/index.jsx" }

/-- Modelled from the spec: the bit-exact banner text format of spec section
6, with the package display name and the organization interpolated into the
fixed license header. Used only to compare against the source's
`createBanner`. -/
def specBannerText (packageDisplayName organization : String) : String :=
  "/**\n * " ++ packageDisplayName ++ "\n *\n * Copyright (c) " ++ organization ++
    "\n *\n * This source code is licensed under the MIT license found in the\n * LICENSE.md file in the root directory of this source tree.\n *\n * @license MIT\n */"

/-- Number of positions at which `pat` occurs as a contiguous run inside `s`
(occurrences may overlap); for a nonempty `pat` this counts exactly the
match positions. -/
def countOccurrences (pat : List Char) : List Char → Nat
  | [] => if pat = [] then 1 else 0
  | c :: rest =>
      (if pat.isPrefixOf (c :: rest) then 1 else 0) + countOccurrences pat rest

theorem contains_eq_decide_mem (name : String) (l : List String) :
    l.contains name = decide (name ∈ l) := by
  by_cases h : name ∈ l <;> simp [h, List.contains, List.elem_iff]

/-- C1: for every package declaration, `buildConfigs` returns exactly 4
descriptors, one per format in the fixed order ESM, CJS, UMD-dev, UMD-prod
(the two UMD variants distinguished by their hard-coded development and
production output files), and all four carry the single entry path resolved
once from `packageDir` and `entryFile`. -/
theorem buildConfigs_four_targets_shared_entry (opts : BuildOpts) :
    (buildConfigs opts).length = 4 ∧
    (buildConfigs opts).map (fun c => c.output.format) = ["esm", "cjs", "umd", "umd"] ∧
    (buildConfigs opts).map (fun c => c.output.file) =
      [none, none,
       some (opts.packageDir ++ "/build/umd/index.development.js"),
       some (opts.packageDir ++ "/build/umd/index.production.js")] ∧
    (buildConfigs opts).map (fun c => c.input) =
      List.replicate 4 (path_resolve opts.packageDir opts.entryFile) := by
  exact ⟨rfl, rfl, rfl, rfl⟩

/-- C2: on all four descriptors of a package the external classifier is the
very same function, exact membership in the declared externals list: it
answers true on a module name iff the name is literally one of the declared
peer-dependency identifiers, and false on every other name (it is total:
there is no error case). -/
theorem external_exact_membership (opts : BuildOpts) (name : String) :
    ((buildConfigs opts).map fun c => c.external name) =
      List.replicate 4 (decide (name ∈ externals)) ∧
    ((buildConfigs opts).map fun c => c.external) =
      List.replicate 4 (fun moduleName => externals.contains moduleName) := by
  constructor
  · simp [buildConfigs, esm, cjs, umdDev, umdProd, List.replicate, contains_eq_decide_mem]
  · rfl

set_option maxRecDepth 40000 in
/-- C5: the banner is one and the same string on all four descriptors of a
package; it equals the bit-exact header format of the spec with the
organization TanStack, parameterized by the package's `name` field (the
display name interpolated into the header); and for the generated
`ranger-core` package that display name occurs in the banner exactly
once. -/
theorem banner_identical_bit_exact (opts : BuildOpts) :
    ((buildConfigs opts).map fun c => c.output.banner) =
      List.replicate 4 (createBanner opts.name) ∧
    createBanner opts.name = specBannerText opts.name "TanStack" ∧
    countOccurrences "ranger-core".data (createBanner "ranger-core").data = 1 := by
  refine ⟨rfl, ?_, by decide⟩
  unfold createBanner specBannerText
  rw [String.append_assoc, String.append_assoc, String.append_assoc]
  rfl

/-- The fixed package declaration with an empty entry file, the C3
scenario. -/
def emptyEntryDecl : BuildOpts :=
  { rangerCoreDecl with entryFile := "" }

/-- C3 counterexample: with an empty `entryFile` the generator neither fails
nor stops before producing descriptors — `buildConfigs` is total, there is
no MisconfiguredPackage error anywhere in the code, and the call still
returns all 4 descriptors. -/
theorem buildConfigs_empty_entry_counterexample :
    (buildConfigs emptyEntryDecl).length = 4 ∧ buildConfigs emptyEntryDecl ≠ [] := by
  refine ⟨rfl, fun h => ?_⟩
  have h0 : (4 : Nat) = 0 := by
    calc (4 : Nat) = (buildConfigs emptyEntryDecl).length := rfl
    _ = ([] : List RollupOptions).length := by rw [h]
    _ = 0 := rfl
  exact Nat.succ_ne_zero 3 h0

/-- C3 amended: `buildConfigs` performs no validation and cannot fail: a
declaration with empty `entryFile` — or with every name field empty as
well — still yields the full list of 4 descriptors, and with an empty
`entryFile` each descriptor's entry path degenerates to the package
directory itself. -/
theorem buildConfigs_no_validation (opts : BuildOpts) :
    (buildConfigs { opts with entryFile := "" }).length = 4 ∧
    (buildConfigs
        { opts with entryFile := "", name := "", jsName := "", outputFile := "" }).length = 4 ∧
    ((buildConfigs { opts with entryFile := "" }).map fun c => c.input) =
      List.replicate 4 opts.packageDir :=
  ⟨rfl, rfl, rfl⟩

/-- C4 counterexample: for the generated package the UMD-prod pipeline has 7
stages, not the 6 the claim lists, and its html report stage does carry the
gzip-size option. -/
theorem umdProd_pipeline_counterexample :
    ((buildConfigs rangerCoreDecl).getLast?.map fun c => c.plugins.length) = some 7 ∧
    ((buildConfigs rangerCoreDecl).getLast?.map fun c =>
        c.plugins.contains
          (.visualizer "packages/ranger-core/build/stats-html.html" none (some true))) =
      some true :=
  ⟨rfl, rfl⟩

/-- C4 amended: for every package the UMD-prod pipeline is exactly
[Transpile, ModuleResolve, EnvironmentReplace(production),
Minify(mangle, compress), Size, Analyze(html-report, gzip-size true),
Analyze(json-report, gzip-size true)] — seven stages: an extra bundle-size
stage follows Minify, and the gzip-size option is set on both report
stages, the html one included. -/
theorem umdProd_pipeline_exact (opts : BuildOpts) :
    ((buildConfigs opts).getLast?.map fun c => c.plugins) =
      some [babelPlugin, .nodeResolve [".ts", ".tsx", ".jsx"],
            umdDevPlugin "production",
            .terser true true,
            .size,
            .visualizer (opts.packageDir ++ "/build/stats-html.html") none (some true),
            .visualizer (opts.packageDir ++ "/build/stats-react.json") (some true)
              (some true)] :=
  rfl

/-- C6 counterexample: for the generated package the ESM descriptor leaves
`preserveModules` unset (so the bundler's default, a flattened code-split
output, applies), refuting that both directory formats request per-module
output shape. -/
theorem esm_no_preserveModules_counterexample :
    ((buildConfigs rangerCoreDecl).head?.map fun c => c.output.preserveModules) = some none ∧
    ((buildConfigs rangerCoreDecl).head?.map fun c => c.output.preserveModules) ≠
      some (some true) :=
  ⟨rfl, by decide⟩

/-- C6 amended: ESM outputs to directory `packageDir/build/esm` with
sourcemaps enabled but without the preserve-modules setting (per-module
output shape is not requested for ESM), while CJS outputs to
`packageDir/build/cjs` with preserve-modules set, named exports, and
sourcemaps enabled. -/
theorem esm_cjs_output_shape (opts : BuildOpts) :
    ((buildConfigs opts).map fun c =>
        (c.output.dir, c.output.sourcemap, c.output.preserveModules, c.output.exports)).take 2 =
      [(some (opts.packageDir ++ "/build/esm"), true, none, none),
       (some (opts.packageDir ++ "/build/cjs"), true, some true, some "named")] :=
  rfl

/-- The transform-stage kind of a plugin, for pipeline-order statements:
babel is the transpile stage, node-resolve the module-resolve stage,
replace the environment-replace stage, terser the minify stage, the two
visualizer invocations are the analyze stages, and the size plugin is its
own bundle-size reporting stage. -/
def stageKind : Plugin → String
  | .babel _ _ _ => "transpile"
  | .nodeResolve _ => "resolve"
  | .replace _ => "environment-replace"
  | .terser _ _ => "minify"
  | .size => "size"
  | .visualizer _ _ _ => "analyze"

/-- C7: in every generated UMD-prod pipeline the stage kinds in order are
transpile, resolve, environment-replace, minify, size, analyze, analyze —
so EnvironmentReplace occurs strictly after Transpile and ModuleResolve and
strictly before Minify, and Minify occurs strictly before both Analyze
stages. -/
theorem umdProd_stage_order (opts : BuildOpts) :
    ((buildConfigs opts).getLast?.map fun c => c.plugins.map stageKind) =
      some ["transpile", "resolve", "environment-replace", "minify", "size",
            "analyze", "analyze"] :=
  rfl

/-- C8: the key set of the process-wide globals mapping is exactly the
externals list; on all four descriptors the classifier answers membership
among those keys (so no target diverges in external classification); and
exactly the two UMD descriptors carry that same globals mapping on their
output. -/
theorem globals_keys_drive_external (opts : BuildOpts) (name : String) :
    globals.map Prod.fst = externals ∧
    ((buildConfigs opts).map fun c => c.external name) =
      List.replicate 4 ((globals.map Prod.fst).contains name) ∧
    ((buildConfigs opts).map fun c => c.output.globals) =
      [none, none, some globals, some globals] :=
  ⟨rfl, rfl, rfl⟩

/-- C9: the exported generator ignores its options argument entirely: any
two calls return the same descriptor list, namely the fixed ranger-core
family of four descriptors. -/
theorem rollup_ignores_options (o1 o2 : RollupOptions) :
    rollup o1 = rollup o2 ∧ rollup o1 = buildConfigs rangerCoreDecl :=
  ⟨rfl, rfl⟩

/-- C10: the `outputFile` field never influences the generated descriptors:
replacing it by any string yields the identical descriptor list, since the
UMD file names are hard-coded and the ESM/CJS outputs use only the package
directory. -/
theorem outputFile_irrelevant (opts : BuildOpts) (s : String) :
    buildConfigs { opts with outputFile := s } = buildConfigs opts :=
  rfl
